import Mathlib

/-!
Verification development for a minimal electricity-fee dialogue controller
(`talk.py`).  The conversation state, the fee-lookup node, the fallback
node, the intent-recognition node and the router are embedded as pure
Lean functions; the language-model classifier is an opaque parameter
`classify : String → String`.
-/

set_option maxHeartbeats 1600000

namespace Talk

/-- Shallow embedding of the `ConversationState` TypedDict of `talk.py`.
`step` is a Python `int`, embedded as `Int`. -/
structure ConversationState where
  user_input : String
  intent : String
  user_id : String
  reply : String
  step : Int
  deriving Repr, DecidableEq

/-- Python `\d` on a `str`: a character of Unicode general category Nd
(decimal digit).  The ranges below are exactly the Nd ranges of the
Unicode database. -/
def pyIsDigit (c : Char) : Bool :=
  let n := c.toNat
  (0x30 ≤ n && n ≤ 0x39) ||
  (0x660 ≤ n && n ≤ 0x669) ||
  (0x6f0 ≤ n && n ≤ 0x6f9) ||
  (0x7c0 ≤ n && n ≤ 0x7c9) ||
  (0x966 ≤ n && n ≤ 0x96f) ||
  (0x9e6 ≤ n && n ≤ 0x9ef) ||
  (0xa66 ≤ n && n ≤ 0xa6f) ||
  (0xae6 ≤ n && n ≤ 0xaef) ||
  (0xb66 ≤ n && n ≤ 0xb6f) ||
  (0xbe6 ≤ n && n ≤ 0xbef) ||
  (0xc66 ≤ n && n ≤ 0xc6f) ||
  (0xce6 ≤ n && n ≤ 0xcef) ||
  (0xd66 ≤ n && n ≤ 0xd6f) ||
  (0xde6 ≤ n && n ≤ 0xdef) ||
  (0xe50 ≤ n && n ≤ 0xe59) ||
  (0xed0 ≤ n && n ≤ 0xed9) ||
  (0xf20 ≤ n && n ≤ 0xf29) ||
  (0x1040 ≤ n && n ≤ 0x1049) ||
  (0x1090 ≤ n && n ≤ 0x1099) ||
  (0x17e0 ≤ n && n ≤ 0x17e9) ||
  (0x1810 ≤ n && n ≤ 0x1819) ||
  (0x1946 ≤ n && n ≤ 0x194f) ||
  (0x19d0 ≤ n && n ≤ 0x19d9) ||
  (0x1a80 ≤ n && n ≤ 0x1a89) ||
  (0x1a90 ≤ n && n ≤ 0x1a99) ||
  (0x1b50 ≤ n && n ≤ 0x1b59) ||
  (0x1bb0 ≤ n && n ≤ 0x1bb9) ||
  (0x1c40 ≤ n && n ≤ 0x1c49) ||
  (0x1c50 ≤ n && n ≤ 0x1c59) ||
  (0xa620 ≤ n && n ≤ 0xa629) ||
  (0xa8d0 ≤ n && n ≤ 0xa8d9) ||
  (0xa900 ≤ n && n ≤ 0xa909) ||
  (0xa9d0 ≤ n && n ≤ 0xa9d9) ||
  (0xa9f0 ≤ n && n ≤ 0xa9f9) ||
  (0xaa50 ≤ n && n ≤ 0xaa59) ||
  (0xabf0 ≤ n && n ≤ 0xabf9) ||
  (0xff10 ≤ n && n ≤ 0xff19) ||
  (0x104a0 ≤ n && n ≤ 0x104a9) ||
  (0x10d30 ≤ n && n ≤ 0x10d39) ||
  (0x11066 ≤ n && n ≤ 0x1106f) ||
  (0x110f0 ≤ n && n ≤ 0x110f9) ||
  (0x11136 ≤ n && n ≤ 0x1113f) ||
  (0x111d0 ≤ n && n ≤ 0x111d9) ||
  (0x112f0 ≤ n && n ≤ 0x112f9) ||
  (0x11450 ≤ n && n ≤ 0x11459) ||
  (0x114d0 ≤ n && n ≤ 0x114d9) ||
  (0x11650 ≤ n && n ≤ 0x11659) ||
  (0x116c0 ≤ n && n ≤ 0x116c9) ||
  (0x11730 ≤ n && n ≤ 0x11739) ||
  (0x118e0 ≤ n && n ≤ 0x118e9) ||
  (0x11950 ≤ n && n ≤ 0x11959) ||
  (0x11c50 ≤ n && n ≤ 0x11c59) ||
  (0x11d50 ≤ n && n ≤ 0x11d59) ||
  (0x11da0 ≤ n && n ≤ 0x11da9) ||
  (0x16a60 ≤ n && n ≤ 0x16a69) ||
  (0x16ac0 ≤ n && n ≤ 0x16ac9) ||
  (0x16b50 ≤ n && n ≤ 0x16b59) ||
  (0x1d7ce ≤ n && n ≤ 0x1d7ff) ||
  (0x1e140 ≤ n && n ≤ 0x1e149) ||
  (0x1e2f0 ≤ n && n ≤ 0x1e2f9) ||
  (0x1e950 ≤ n && n ≤ 0x1e959) ||
  (0x1fbf0 ≤ n && n ≤ 0x1fbf9)

/-- A Python whitespace character: `str.isspace()` is true of it.
These are the code points Python strips in `str.strip()`. -/
def pyIsSpace (c : Char) : Bool :=
  let n := c.toNat
  (0x9 ≤ n && n ≤ 0xd) || (0x1c ≤ n && n ≤ 0x20) ||
  n == 0x85 || n == 0xa0 || n == 0x1680 ||
  (0x2000 ≤ n && n ≤ 0x200a) ||
  n == 0x2028 || n == 0x2029 || n == 0x202f || n == 0x205f || n == 0x3000

/-- Python `str.strip()`: drop leading and trailing whitespace. -/
def pyStrip (s : String) : String :=
  String.mk (((s.data.dropWhile pyIsSpace).reverse.dropWhile pyIsSpace).reverse)

/-- `re.search(r'\d{10,12}', s)` over a character list: scan positions
left to right; at the first position where at least 10 consecutive
decimal digits begin, the greedy quantifier matches those digits,
capped at 12.  Returns `none` when no position starts 10 consecutive
digits. -/
def searchDigits10to12 : List Char → Option (List Char)
  | [] => none
  | c :: rest =>
    if 10 ≤ ((c :: rest).takeWhile pyIsDigit).length then
      some (((c :: rest).takeWhile pyIsDigit).take 12)
    else searchDigits10to12 rest

/-- Account-identifier extraction used by `check_electric_fee_node` at
step 1: `re.search(r'\d{10,12}', user_input)` and `.group()`. -/
def extractId (s : String) : Option String :=
  (searchDigits10to12 s.data).map String.mk

/-- Reply of the step-0 branch of `check_electric_fee_node`. -/
def prompt_msg : String :=
  "为了帮你查询电费，请提供你的用电户号（如1234567890）。"

/-- Reply of the step-1 success branch, echoing the extracted id. -/
def fee_reply (uid : String) : String :=
  "你的用电户号" ++ uid ++
    "本月电费为：125.6元，账单日期：2026-01-27，缴费截止日期：2026-02-15。"

/-- Reply of the step-1 failure branch (malformed account id). -/
def format_err_msg : String :=
  "你输入的户号格式错误（需10-12位纯数字），本次查询结束。如需重新查询，请再次输入\x27查电费\x27。"

/-- Reply of the step-2 branch (lookup already completed). -/
def done_msg : String :=
  "你已完成电费查询，如需再次查询，请重新输入\x27查电费\x27。"

/-- Reply of `other_intent_node`. -/
def fallback_msg : String :=
  "暂仅支持电费查询服务，如需查询电费，请输入\x27查电费\x27。"

/-- `check_electric_fee_node` of `talk.py`: the three-step fee-lookup
flow.  A `step` outside 0, 1, 2 matches no branch and the state is
returned unchanged. -/
def check_electric_fee_node (state : ConversationState) : ConversationState :=
  if state.step = 0 then
    { state with reply := prompt_msg, step := 1 }
  else if state.step = 1 then
    match extractId state.user_input with
    | some uid =>
        { state with user_id := uid, reply := fee_reply uid, step := 2 }
    | none =>
        { state with reply := format_err_msg, step := 0 }
  else if state.step = 2 then
    { state with reply := done_msg, step := 0 }
  else
    state

/-- `other_intent_node` of `talk.py`: fixed reply, `step` reset to 0. -/
def other_intent_node (state : ConversationState) : ConversationState :=
  { state with reply := fallback_msg, step := 0 }

/-- `intent_recognition_node` of `talk.py`.  The LLM chain is the opaque
parameter `classify`; the code strips its output and forces the result
into the two-label set. -/
def intent_recognition_node (classify : String → String)
    (state : ConversationState) : ConversationState :=
  let intent := pyStrip (classify state.user_input)
  { state with
      intent := if intent = "check_electric_fee" then "check_electric_fee"
                else "other" }

/-- `route_intent` of `talk.py`. -/
def route_intent (state : ConversationState) : String :=
  if state.intent = "check_electric_fee" then "check_electric_fee_node"
  else "other_intent_node"

/-- One full turn of the compiled graph: intent recognition, conditional
routing, then exactly one of the two flow nodes. -/
def run_turn (classify : String → String)
    (state : ConversationState) : ConversationState :=
  let s1 := intent_recognition_node classify state
  if route_intent s1 = "check_electric_fee_node" then
    check_electric_fee_node s1
  else
    other_intent_node s1

/-- Length of the digit run beginning at position `i` of `cs`. -/
def runLenAt (cs : List Char) (i : Nat) : Nat :=
  ((cs.drop i).takeWhile pyIsDigit).length

/-- Position-based description of the leftmost regex match: the first
position (scanning left to right) at which at least 10 consecutive
decimal digits begin. -/
def matchPos (cs : List Char) : Option Nat :=
  (List.range cs.length).find? (fun i => 10 ≤ runLenAt cs i)

/-- The extraction the amended C1 describes: at the first position where
a run of at least 10 decimal digits begins, take that run capped at 12
characters; fail when no position begins 10 consecutive digits. -/
def leftmostCapped (s : String) : Option String :=
  (matchPos s.data).map
    (fun i => String.mk (((s.data.drop i).takeWhile pyIsDigit).take 12))

/-- An ASCII digit, the character class of the spec's extraction rule. -/
def isAsciiDigit (c : Char) : Bool :=
  decide ('0' ≤ c) && decide (c ≤ '9')

/-- Length of the ASCII-digit run beginning at position `i` of `cs`. -/
def asciiRunLenAt (cs : List Char) (i : Nat) : Nat :=
  ((cs.drop i).takeWhile isAsciiDigit).length

/-- Modelled from the spec: "scan `user_input` for the first maximal run
of ASCII digits whose length is between 10 and 12 inclusive; if none
exists, validation fails" together with "runs shorter than 10 or longer
than 12 digits are ignored entirely".  A maximal ASCII-digit run starts
at position `i` when an ASCII digit is at `i` and none is right before
it; the run is eligible only when its full length lies in [10, 12]. -/
def specMaximalRunPos (cs : List Char) : Option Nat :=
  (List.range cs.length).find?
    (fun i =>
      (decide (i = 0) || !(isAsciiDigit (cs.getD (i - 1) 'x'))) &&
      isAsciiDigit (cs.getD i 'x') &&
      10 ≤ asciiRunLenAt cs i && asciiRunLenAt cs i ≤ 12)

/-- Modelled from the spec: the account id the spec's extraction rule
produces, the first maximal ASCII-digit run of length 10 to 12. -/
def specExtractId (s : String) : Option String :=
  (specMaximalRunPos s.data).map
    (fun i => String.mk ((s.data.drop i).takeWhile isAsciiDigit))

end Talk

namespace Talk

theorem searchDigits10to12_eq_matchPos (cs : List Char) :
    searchDigits10to12 cs =
      (matchPos cs).map (fun i => ((cs.drop i).takeWhile pyIsDigit).take 12) := by
  induction cs with
  | nil => rfl
  | cons c rest ih =>
    have hpred : ((fun i => decide (10 ≤ runLenAt (c :: rest) i)) ∘ Nat.succ)
        = (fun i => decide (10 ≤ runLenAt rest i)) := by
      funext i
      simp [Function.comp, runLenAt]
    unfold searchDigits10to12 matchPos
    simp only [List.length_cons]
    rw [List.range_succ_eq_map]
    by_cases h : 10 ≤ ((c :: rest).takeWhile pyIsDigit).length
    · rw [List.find?_cons_of_pos _ (by simp [runLenAt]; exact h), if_pos h]
      rfl
    · rw [List.find?_cons_of_neg _ (by simp [runLenAt]; omega), if_neg h,
        ih, List.find?_map, hpred]
      unfold matchPos
      cases (List.range rest.length).find? (fun i => decide (10 ≤ runLenAt rest i)) with
      | none => rfl
      | some j => rfl

theorem extractId_eq_leftmostCapped (s : String) :
    extractId s = leftmostCapped s := by
  unfold extractId leftmostCapped
  rw [searchDigits10to12_eq_matchPos]
  cases matchPos s.data <;> simp

end Talk

namespace TalkClaims

open Talk

/-- Claim C1, counterexample.  The claim says the stored account id is
the first maximal run of ASCII digits of length 10 to 12 and that a
13-digit run never contributes an account id.  On the 13-digit input
"1234567890123" the spec-side extraction fails, yet the code stores the
first 12 digits and advances to step 2; and on ten Arabic-Indic digits
(no ASCII digit present, so the spec-side extraction fails) the code
stores them as the account id. -/
theorem C1_counterexample :
    (check_electric_fee_node ⟨"1234567890123", "check_electric_fee", "", "", 1⟩).user_id
        = "123456789012" ∧
      (check_electric_fee_node ⟨"1234567890123", "check_electric_fee", "", "", 1⟩).step = 2 ∧
      specExtractId "1234567890123" = none ∧
      (check_electric_fee_node ⟨"١٢٣٤٥٦٧٨٩٠", "check_electric_fee", "", "", 1⟩).user_id
        = "١٢٣٤٥٦٧٨٩٠" ∧
      specExtractId "١٢٣٤٥٦٧٨٩٠" = none := by
  refine ⟨by decide, by decide, by decide, by decide, by decide⟩

/-- Claim C1, amended.  At step 1 the stored account id is the leftmost
regex-style match of 10 to 12 decimal digits: at the first position,
scanning left to right, where at least 10 consecutive decimal digits
(Unicode category Nd, not only ASCII) begin, the digit run starting
there truncated to 12 characters is stored, the reply echoes it, and
step becomes 2 — so a run longer than 12 digits contributes its first
12 digits; runs shorter than 10 are ignored entirely; if no position
begins at least 10 consecutive digits, validation fails. -/
theorem C1_step1_extraction (state : ConversationState) (h : state.step = 1) :
    check_electric_fee_node state =
      match leftmostCapped state.user_input with
      | some uid => { state with user_id := uid, reply := fee_reply uid, step := 2 }
      | none => { state with reply := format_err_msg, step := 0 } := by
  rw [← extractId_eq_leftmostCapped]
  unfold check_electric_fee_node
  rw [if_neg (by rw [h]; decide), if_pos h]

/-- Claim C1, witness for the amended theorem at the 13-digit input. -/
theorem C1_step1_extraction_witness :
    (check_electric_fee_node ⟨"1234567890123", "", "", "", 1⟩).user_id
      = "123456789012" := by
  have h := C1_step1_extraction ⟨"1234567890123", "", "", "", 1⟩ rfl
  rw [h]
  decide

/-- Claim C2: at step 1, when no position of the input begins a run of
at least 10 consecutive decimal digits (so the input contains no digit
run of length 10 to 12), the node only sets the reply to the
format-error message and resets step to 0; in particular the stored
account id is unchanged and no fault is raised (the node is a total
function). -/
theorem C2_step1_malformed (state : ConversationState) (h1 : state.step = 1)
    (h2 : matchPos state.user_input.data = none) :
    check_electric_fee_node state = { state with reply := format_err_msg, step := 0 } := by
  have he : extractId state.user_input = none := by
    rw [extractId_eq_leftmostCapped]
    unfold leftmostCapped
    rw [h2]
    rfl
  unfold check_electric_fee_node
  rw [if_neg (by rw [h1]; decide), if_pos h1, he]

/-- Claim C2, witness: scenario 3 of the spec, input "123" at step 1
with a previously stored account id. -/
theorem C2_step1_malformed_witness :
    check_electric_fee_node ⟨"123", "check_electric_fee", "prev", "", 1⟩
      = ⟨"123", "check_electric_fee", "prev", format_err_msg, 0⟩ :=
  C2_step1_malformed ⟨"123", "check_electric_fee", "prev", "", 1⟩ rfl (by decide)

/-- Claim C3: scenario 2 — at step 1 with input
"我的户号是1234567890谢谢" the node stores account id "1234567890",
the reply contains "125.6元" and echoes the account id, and step
becomes 2. -/
theorem C3_scenario2 :
    (check_electric_fee_node
        ⟨"我的户号是1234567890谢谢", "check_electric_fee", "", "", 1⟩).user_id
      = "1234567890" ∧
    (check_electric_fee_node
        ⟨"我的户号是1234567890谢谢", "check_electric_fee", "", "", 1⟩).step = 2 ∧
    (∃ a b, (check_electric_fee_node
        ⟨"我的户号是1234567890谢谢", "check_electric_fee", "", "", 1⟩).reply
      = a ++ "125.6元" ++ b) ∧
    (∃ a b, (check_electric_fee_node
        ⟨"我的户号是1234567890谢谢", "check_electric_fee", "", "", 1⟩).reply
      = a ++ "1234567890" ++ b) :=
  ⟨by decide, by decide,
    ⟨"你的用电户号1234567890本月电费为：",
      "，账单日期：2026-01-27，缴费截止日期：2026-02-15。", by decide⟩,
    ⟨"你的用电户号",
      "本月电费为：125.6元，账单日期：2026-01-27，缴费截止日期：2026-02-15。", by decide⟩⟩

/-- Claim C4: for every incoming state (any step value, any input) the
fallback node returns the state with the one fixed reply and step 0,
changing nothing else; it has no error conditions (it is a total
function). -/
theorem C4_fallback (state : ConversationState) :
    other_intent_node state = { state with reply := fallback_msg, step := 0 } := rfl

/-- Claim C5, counterexample.  The classifier returns
"check_electric_fee" followed by a newline — not the exact expected
label — yet the code (which strips the returned value) sets the intent
to check_electric_fee instead of other as the claim requires. -/
theorem C5_counterexample :
    (intent_recognition_node (fun _ => "check_electric_fee\n")
        ⟨"查电费", "", "", "", 0⟩).intent = "check_electric_fee" ∧
      "check_electric_fee\n" ≠ "check_electric_fee" := by
  refine ⟨by decide, by decide⟩

/-- Claim C5, amended.  For every value the classifier returns, the
intent field is check_electric_fee exactly when that value, after
stripping leading and trailing whitespace, equals the expected label,
and other in every other case; the intent is always one of the two
labels, and the node is a total function of the returned value (no
fault propagates from an unexpected or empty result). -/
theorem C5_classifier_forcing (classify : String → String)
    (state : ConversationState) :
    ((intent_recognition_node classify state).intent = "check_electric_fee"
        ↔ pyStrip (classify state.user_input) = "check_electric_fee") ∧
      ((intent_recognition_node classify state).intent = "check_electric_fee" ∨
        (intent_recognition_node classify state).intent = "other") := by
  unfold intent_recognition_node
  by_cases h : pyStrip (classify state.user_input) = "check_electric_fee" <;>
    simp [h]

/-- Claim C6: the stored account id is written only by the step-1
success branch of the fee-lookup node.  Whenever the state is not at
step 1, or is at step 1 but no position of the input begins 10
consecutive decimal digits, the fee-lookup node leaves the account id
exactly as it was on entry; and the fallback node leaves it unchanged
unconditionally, for every state whatsoever (any step, any input). -/
theorem C6_account_id_frame (state : ConversationState)
    (h : state.step ≠ 1 ∨ matchPos state.user_input.data = none) :
    (check_electric_fee_node state).user_id = state.user_id ∧
      ∀ s : ConversationState, (other_intent_node s).user_id = s.user_id := by
  refine ⟨?_, fun s => rfl⟩
  unfold check_electric_fee_node
  rcases h with h | h
  · by_cases h0 : state.step = 0 <;> by_cases h2 : state.step = 2 <;>
      simp [h0, h2, h]
  · have he : extractId state.user_input = none := by
      rw [extractId_eq_leftmostCapped]
      unfold leftmostCapped
      rw [h]
      rfl
    by_cases h0 : state.step = 0 <;> by_cases h1 : state.step = 1 <;>
      by_cases h2 : state.step = 2 <;> simp [h0, h1, h2, he]

/-- Claim C6, witness: re-entry at step 2 (which resets step to 0)
keeps a previously stored account id, and so does the fallback node
even at a step-1 state whose input contains a valid 10-digit run. -/
theorem C6_account_id_frame_witness :
    (check_electric_fee_node ⟨"查电费", "other", "9999999999", "x", 2⟩).user_id
        = "9999999999" ∧
      (other_intent_node ⟨"1234567890", "other", "8888888888", "y", 1⟩).user_id
        = "8888888888" := by
  have h := C6_account_id_frame ⟨"查电费", "other", "9999999999", "x", 2⟩
    (Or.inl (by decide))
  exact ⟨h.1, h.2 ⟨"1234567890", "other", "8888888888", "y", 1⟩⟩

/-- Claim C7: for every classifier behaviour and every state whose step
is 0, 1 or 2, one full turn (classification, routing, the selected
node) is a total function whose resulting step is again 0, 1 or 2. -/
theorem C7_step_invariant (classify : String → String)
    (state : ConversationState)
    (h : state.step = 0 ∨ state.step = 1 ∨ state.step = 2) :
    (run_turn classify state).step = 0 ∨ (run_turn classify state).step = 1 ∨
      (run_turn classify state).step = 2 := by
  unfold run_turn
  have hstep : (intent_recognition_node classify state).step = state.step := rfl
  by_cases hr : route_intent (intent_recognition_node classify state)
      = "check_electric_fee_node"
  · rw [if_pos hr]
    unfold check_electric_fee_node
    rcases h with h | h | h
    · simp [hstep, h]
    · cases hext : extractId (intent_recognition_node classify state).user_input <;>
        simp [hstep, h, hext]
    · simp [hstep, h]
  · rw [if_neg hr]
    left
    rfl

/-- Claim C7, witness at the initial state with a classifier answering
an unexpected label. -/
theorem C7_step_invariant_witness :
    (run_turn (fun _ => "hello") ⟨"查电费", "", "", "", 0⟩).step = 0 ∨
      (run_turn (fun _ => "hello") ⟨"查电费", "", "", "", 0⟩).step = 1 ∨
      (run_turn (fun _ => "hello") ⟨"查电费", "", "", "", 0⟩).step = 2 :=
  C7_step_invariant (fun _ => "hello") ⟨"查电费", "", "", "", 0⟩ (Or.inl rfl)

/-- Claim C8: at step 0 the fee-lookup node only sets the reply to the
account-identifier prompt and step to 1; the content of the input and
the stored account id do not influence the transition (the reply is the
fixed prompt and every other field is kept). -/
theorem C8_step0_prompt (state : ConversationState) (h : state.step = 0) :
    check_electric_fee_node state = { state with reply := prompt_msg, step := 1 } := by
  unfold check_electric_fee_node
  rw [if_pos h]

/-- Claim C8, witness: scenario 1, with a stored account id present. -/
theorem C8_step0_prompt_witness :
    check_electric_fee_node ⟨"查电费", "check_electric_fee", "1111111111", "", 0⟩
      = ⟨"查电费", "check_electric_fee", "1111111111", prompt_msg, 1⟩ :=
  C8_step0_prompt ⟨"查电费", "check_electric_fee", "1111111111", "", 0⟩ rfl

/-- Claim C9: at step 2 the fee-lookup node only sets the reply to the
already-completed message and resets step to 0; no error is raised and
no other field changes. -/
theorem C9_step2_completed (state : ConversationState) (h : state.step = 2) :
    check_electric_fee_node state = { state with reply := done_msg, step := 0 } := by
  unfold check_electric_fee_node
  rw [if_neg (by rw [h]; decide), if_neg (by rw [h]; decide), if_pos h]

/-- Claim C9, witness: scenario 4. -/
theorem C9_step2_completed_witness :
    check_electric_fee_node ⟨"查电费", "check_electric_fee", "1234567890", "", 2⟩
      = ⟨"查电费", "check_electric_fee", "1234567890", done_msg, 0⟩ :=
  C9_step2_completed ⟨"查电费", "check_electric_fee", "1234567890", "", 2⟩ rfl

/-- Claim C10: when the fee-lookup node is invoked with a step outside
0, 1, 2, no branch executes and the state is returned entirely
unchanged — step keeps its out-of-range value and the reply keeps
whatever value it had on entry. -/
theorem C10_out_of_range (state : ConversationState)
    (h0 : state.step ≠ 0) (h1 : state.step ≠ 1) (h2 : state.step ≠ 2) :
    check_electric_fee_node state = state := by
  unfold check_electric_fee_node
  rw [if_neg h0, if_neg h1, if_neg h2]

/-- Claim C10, witness at step 5 with a stale reply. -/
theorem C10_out_of_range_witness :
    check_electric_fee_node ⟨"1234567890", "check_electric_fee", "", "old", 5⟩
      = ⟨"1234567890", "check_electric_fee", "", "old", 5⟩ :=
  C10_out_of_range ⟨"1234567890", "check_electric_fee", "", "old", 5⟩
    (by decide) (by decide) (by decide)

end TalkClaims
